import Mathlib

/-!
Verification of the just-prompt provider abstraction layer.

Shallow embedding of:
* `AnthropicProvider._parse_model_with_thinking_tokens` (the model-option
  parser built on the Python regex `^(.*?):(\d+)([km])?$`),
* the three provider adapters' `generate` control flow, including the
  `_handle_error` retry/backoff logic of each adapter,
* `Provider.from_prefix`,
* `OpenAIProvider.list_models` and `AnthropicProvider.list_models`.

Python strings are modelled as `String`/`List Char`.  Python regex details
that matter here and are modelled faithfully:
* `.` does not match a newline, so the base-model group `(.*?)` can never
  contain a newline;
* `$` matches at the end of the string and also just before a single
  trailing newline;
* `\d` is modelled as the ASCII digits 0-9 (all inputs in the claims are
  ASCII).
Python truthiness of strings (empty string is falsy) and of integers
(zero is falsy) is modelled explicitly where the source relies on it.
-/

/-- ASCII decimal digit, the model of the regex class `\d` on ASCII input. -/
def pyDigit (c : Char) : Bool := decide ('0' ≤ c) && decide (c ≤ '9')

/-- Base-10 value of a digit list, the model of Python `int` applied to the
digits captured by the regex. -/
def natOfDigits (ds : List Char) : Nat :=
  ds.foldl (fun n c => 10 * n + (c.toNat - 48)) 0

/-- The effect of the regex anchor `$` in Python: it also matches just
before a single trailing newline, so a trailing newline is ignored. -/
def stripNL (r : List Char) : List Char :=
  if r.getLast? = some '\n' then r.dropLast else r

/-- Split off the optional unit group `([km])?` from the right end,
returning the multiplier the source applies (1024 for k, 1024*1024 for m). -/
def splitUnit (r : List Char) : Nat × List Char :=
  match r.getLast? with
  | some 'k' => (1024, r.dropLast)
  | some 'm' => (1024 * 1024, r.dropLast)
  | _ => (1, r)

/-- Match the text after a candidate colon against `(\d+)([km])?$` and
return the resolved token value (digits times unit multiplier). -/
def matchNumSuffix (r : List Char) : Option Nat :=
  let r1 := stripNL r
  let m := (splitUnit r1).1
  let r2 := (splitUnit r1).2
  if !r2.isEmpty && r2.all pyDigit then some (natOfDigits r2 * m) else none

/-- Scan for the colon whose suffix matches `(\d+)([km])?$`; `acc` holds the
characters before the scan position in reverse.  The non-greedy `(.*?)`
takes the first such colon (at most one colon can match, because a matching
suffix contains no colon), and since `.` cannot match a newline the whole
regex fails when the base segment contains one. -/
def scanColon : List Char → List Char → Option (List Char × Nat)
  | _, [] => none
  | acc, c :: rest =>
    if c = ':' then
      match matchNumSuffix rest with
      | some v => if acc.contains '\n' then none else some (acc.reverse, v)
      | none => scanColon (c :: acc) rest
    else scanColon (c :: acc) rest

/-- Embedding of `AnthropicProvider._parse_model_with_thinking_tokens` on
character lists: `re.match(r"^(.*?):(\d+)([km])?$", model)`; on a match the
base group and the unit-scaled token value are returned, otherwise the
whole input with no token value. -/
def parseModelCore (cs : List Char) : List Char × Option Nat :=
  match scanColon [] cs with
  | some (base, v) => (base, some v)
  | none => (cs, none)

/-- String-level wrapper of the model-option parser,
`AnthropicProvider._parse_model_with_thinking_tokens`. -/
def parseModelWithThinkingTokens (model : String) : String × Option Nat :=
  match parseModelCore model.toList with
  | (base, v) => (String.mk base, v)

/-- Split a list at its last colon: `some (before, after)` when a colon
exists, `none` otherwise.  Used only to state which inputs carry a
well-formed option suffix. -/
def lastColonSplit : List Char → Option (List Char × List Char)
  | [] => none
  | c :: rest =>
    match lastColonSplit rest with
    | some (a, b) => some (c :: a, b)
    | none => if c = ':' then some ([], rest) else none

/-- The class of inputs the no-suffix claim is about: no colon at all, or
the text after the last colon does not match `(\d+)([km])?$`. -/
def noSuffixInput (cs : List Char) : Bool :=
  match lastColonSplit cs with
  | none => true
  | some (_, b) => (matchNumSuffix b).isNone

/-- Python truthiness of an optional string: `None` and `""` are falsy. -/
def pyTruthyStr : Option String → Bool
  | none => false
  | some s => !s.isEmpty

/-- Python truthiness applied to the parsed token count: the source guards
`if thinking_tokens:` before adding the parameter, so a value of 0 is
dropped like `None`. -/
def pyTruthyTok : Option Nat → Option Nat
  | some 0 => none
  | some (n + 1) => some (n + 1)
  | none => none

/-- Python `str.lower` on the ASCII range (all message text compared by the
source is ASCII). -/
def lowerStr (s : String) : String := String.mk (s.toList.map Char.toLower)

/-- Substring test on character lists, the model of Python `in` on strings. -/
def containsSub : List Char → List Char → Bool
  | [], needle => needle.isEmpty
  | c :: t, needle => needle.isPrefixOf (c :: t) || containsSub t needle

/-- Python `sub in hay` for strings. -/
def pyContains (hay sub : String) : Bool := containsSub hay.toList sub.toList

/-- Python `s.startswith(pre)`. -/
def pyStartsWith (s pre : String) : Bool := pre.toList.isPrefixOf s.toList

deriving instance DecidableEq for Except

/-- The shared response value `PromptResponse` (data_types.py). -/
structure PromptResponse where
  model : String
  content : String
  tokens : Option Nat
deriving DecidableEq

/-- Observable outcome of one `generate` call: a normal return, a raised
`ValueError` (the uniform error taxonomy), a re-raised original vendor
error, or `hung` when the step budget ran out (the source recursion has no
bound of its own). -/
inductive RunResult (ε : Type) where
  | ok (resp : PromptResponse)
  | valueError (msg : String)
  | reraised (e : ε)
  | hung
deriving DecidableEq

/-- Trace of one `generate` call: final outcome, every request handed to
the vendor in order, and every backoff sleep duration in order. -/
structure Run (ρ ε : Type) where
  result : RunResult ε
  requests : List ρ
  sleeps : List Nat
deriving DecidableEq

/-- What `_handle_error` decides to do after its sleeps: re-invoke
`generate`, raise a fresh `ValueError`, or re-raise the original error. -/
inductive HAct where
  | retry
  | raiseMsg (msg : String)
  | reraise
deriving DecidableEq

/-- Result of `_handle_error`: the sleeps it performed and the action it
took. -/
structure HDecision where
  sleeps : List Nat
  act : HAct
deriving DecidableEq

/-- The error shapes the OpenAI-like and Anthropic-like `_handle_error`
distinguish by `isinstance`: the SDK's dedicated rate-limit and
authentication error types, any other SDK `APIError`, and everything else
(network errors, programming errors such as `IndexError`, ...).  Each
carries `str(error)`. -/
inductive SdkErr where
  | rateLimit (msg : String)
  | auth (msg : String)
  | api (msg : String)
  | other (msg : String)
deriving DecidableEq

/-- `str(error)` for an SDK error. -/
def SdkErr.msg : SdkErr → String
  | .rateLimit m => m
  | .auth m => m
  | .api m => m
  | .other m => m

/-- `isinstance(error, RateLimitError)`. -/
def SdkErr.isRateLimitE : SdkErr → Bool
  | .rateLimit _ => true
  | _ => false

/-- `isinstance(error, AuthenticationError)`. -/
def SdkErr.isAuthE : SdkErr → Bool
  | .auth _ => true
  | _ => false

/-- `isinstance(error, APIError)`: in both SDKs the rate-limit and
authentication errors are subclasses of `APIError`, so only the
non-SDK errors fall outside it. -/
def SdkErr.isAPIE : SdkErr → Bool
  | .other _ => false
  | _ => true

/-- Embedding of `_handle_error` of the OpenAI and Anthropic adapters,
which differ only in the three message prefixes.  `retryCount` is the
`retry_count` argument; `prompt`/`model` model `kwargs.get(...)`.
Branches, in source order: rate-limit with budget left sleeps
`2 ** retry_count` then retries when the context is truthy, else re-raises;
authentication raises the key-invalid `ValueError`; other `APIError` with
budget left sleeps 1 then retries when the context is truthy, else raises
the API-error `ValueError`; everything else raises the generic
`ValueError`. -/
def sdkHandleError (keyInvalidMsg apiErrMsg otherErrMsg : String)
    (e : SdkErr) (retryCount : Nat) (prompt model : Option String) : HDecision :=
  if e.isRateLimitE ∧ retryCount < 3 then
    { sleeps := [2 ^ retryCount],
      act := if pyTruthyStr prompt ∧ pyTruthyStr model then .retry else .reraise }
  else if e.isAuthE then
    { sleeps := [], act := .raiseMsg (keyInvalidMsg ++ e.msg) }
  else if e.isAPIE then
    if retryCount < 3 then
      if pyTruthyStr prompt ∧ pyTruthyStr model then
        { sleeps := [1], act := .retry }
      else
        { sleeps := [1], act := .raiseMsg (apiErrMsg ++ e.msg) }
    else { sleeps := [], act := .raiseMsg (apiErrMsg ++ e.msg) }
  else { sleeps := [], act := .raiseMsg (otherErrMsg ++ e.msg) }

/-- The request `AnthropicProvider.generate` hands to
`client.messages.create`: parsed base model, `max_tokens=1024`, the user
message, and `thinking_tokens` only when the parsed value is truthy. -/
structure AnthRequest where
  model : String
  maxTokens : Nat
  content : String
  thinkingTokens : Option Nat
deriving DecidableEq

/-- A successful Anthropic vendor response: the `content` blocks' texts and
the optional `usage` pair (input tokens, output tokens). -/
structure AnthOk where
  contents : List String
  usage : Option (Nat × Nat)
deriving DecidableEq

/-- A simulated Anthropic vendor call: given the number of attempts made so
far and the request, either succeed or raise an error. -/
abbrev AnthVendor := Nat → AnthRequest → AnthOk ⊕ SdkErr

/-- The request construction part of `AnthropicProvider.generate`:
`message_params` built from the parsed model string. -/
def anthBuildRequest (prompt model : String) : AnthRequest :=
  { model := (parseModelWithThinkingTokens model).1,
    maxTokens := 1024,
    content := prompt,
    thinkingTokens := pyTruthyTok (parseModelWithThinkingTokens model).2 }

/-- One `generate` invocation of the Anthropic adapter, with explicit fuel
for the unbounded `generate`/`_handle_error` mutual recursion of the
source.  Accumulates the vendor requests and sleep durations.  On success
the response model is the original string and tokens is
`input_tokens + output_tokens` when usage is reported; an empty content
list raises `IndexError` inside the `try`, reaching `_handle_error` like a
vendor error.  Crucially the source always calls `_handle_error` with
`retry_count=0` and retries by re-invoking `generate` from scratch. -/
def anthropicGenLoop (vendor : AnthVendor) (prompt model : String) :
    Nat → List AnthRequest → List Nat → Run AnthRequest SdkErr
  | 0, reqs, sl => { result := .hung, requests := reqs, sleeps := sl }
  | fuel + 1, reqs, sl =>
    let req := anthBuildRequest prompt model
    let outcome : (String × Option (Nat × Nat)) ⊕ SdkErr :=
      match vendor reqs.length req with
      | .inl ok =>
        match ok.contents with
        | c :: _ => .inl (c, ok.usage)
        | [] => .inr (.other "list index out of range")
      | .inr e => .inr e
    match outcome with
    | .inl (c, usage) =>
      { result := .ok { model := model, content := c,
                        tokens := usage.map (fun u => u.1 + u.2) },
        requests := reqs ++ [req], sleeps := sl }
    | .inr e =>
      let d := sdkHandleError "Anthropic API key is invalid: "
        "Anthropic API error: " "Error occurred when calling Anthropic API: "
        e 0 (some prompt) (some model)
      match d.act with
      | .retry => anthropicGenLoop vendor prompt model fuel (reqs ++ [req]) (sl ++ d.sleeps)
      | .raiseMsg m =>
        { result := .valueError m, requests := reqs ++ [req], sleeps := sl ++ d.sleeps }
      | .reraise =>
        { result := .reraised e, requests := reqs ++ [req], sleeps := sl ++ d.sleeps }

/-- `AnthropicProvider.generate` from a fresh call. -/
def anthropicGenerate (vendor : AnthVendor) (prompt model : String) (fuel : Nat) :
    Run AnthRequest SdkErr :=
  anthropicGenLoop vendor prompt model fuel [] []

/-- The request `OpenAIProvider.generate` hands to the vendor: the chat
endpoint when the raw model string starts with `gpt-`, the completion
endpoint otherwise.  The raw model string is passed through unparsed. -/
inductive OpenAIRequest where
  | chat (model : String) (content : String) (maxTokens : Nat)
  | completion (model : String) (prompt : String) (maxTokens : Nat)
deriving DecidableEq

/-- Request construction of `OpenAIProvider.generate`. -/
def openaiBuildRequest (prompt model : String) : OpenAIRequest :=
  if pyStartsWith model "gpt-" then .chat model prompt 1024
  else .completion model prompt 1024

/-- A successful OpenAI vendor response: the texts of the choices and the
optional `usage.total_tokens`. -/
structure OpenAIOk where
  texts : List String
  usage : Option Nat
deriving DecidableEq

/-- A simulated OpenAI vendor call. -/
abbrev OpenAIVendor := Nat → OpenAIRequest → OpenAIOk ⊕ SdkErr

/-- One `generate` invocation of the OpenAI adapter, same control flow as
the Anthropic one (the source duplicates `_handle_error` verbatim up to
the message prefixes); the model string is never parsed. -/
def openaiGenLoop (vendor : OpenAIVendor) (prompt model : String) :
    Nat → List OpenAIRequest → List Nat → Run OpenAIRequest SdkErr
  | 0, reqs, sl => { result := .hung, requests := reqs, sleeps := sl }
  | fuel + 1, reqs, sl =>
    let req := openaiBuildRequest prompt model
    let outcome : (String × Option Nat) ⊕ SdkErr :=
      match vendor reqs.length req with
      | .inl ok =>
        match ok.texts with
        | c :: _ => .inl (c, ok.usage)
        | [] => .inr (.other "list index out of range")
      | .inr e => .inr e
    match outcome with
    | .inl (c, usage) =>
      { result := .ok { model := model, content := c, tokens := usage },
        requests := reqs ++ [req], sleeps := sl }
    | .inr e =>
      let d := sdkHandleError "OpenAI API key is invalid: "
        "OpenAI API error: " "Error occurred when calling OpenAI API: "
        e 0 (some prompt) (some model)
      match d.act with
      | .retry => openaiGenLoop vendor prompt model fuel (reqs ++ [req]) (sl ++ d.sleeps)
      | .raiseMsg m =>
        { result := .valueError m, requests := reqs ++ [req], sleeps := sl ++ d.sleeps }
      | .reraise =>
        { result := .reraised e, requests := reqs ++ [req], sleeps := sl ++ d.sleeps }

/-- `OpenAIProvider.generate` from a fresh call. -/
def openaiGenerate (vendor : OpenAIVendor) (prompt model : String) (fuel : Nat) :
    Run OpenAIRequest SdkErr :=
  openaiGenLoop vendor prompt model fuel [] []

/-- The request `GeminiProvider.generate` hands to the vendor: the raw
model string (never parsed), the fixed generation config
(`max_output_tokens=2048`, `top_k=40`; the floating-point `temperature`
and `top_p` are out of scope), and the prompt. -/
structure GeminiRequest where
  modelName : String
  maxOutputTokens : Nat
  topK : Nat
  prompt : String
deriving DecidableEq

/-- One candidate of a Gemini response; `content` is `none` when the
attribute is missing or falsy, otherwise the texts of its parts. -/
structure GeminiCandidate where
  content : Option (List String)
deriving DecidableEq

/-- A successful Gemini vendor response: `text` is `some` exactly when the
response has a `text` attribute; `candidates` feeds the fallback
extraction; `reprStr` is `str(response)`, the last-resort content;
`usage` is `usage_metadata.total_token_count` when reported. -/
structure GeminiOk where
  text : Option String
  candidates : List GeminiCandidate
  reprStr : String
  usage : Option Nat
deriving DecidableEq

/-- A simulated Gemini vendor call; errors are bare exceptions carrying
only `str(error)` (the Gemini adapter classifies by message text only). -/
abbrev GeminiVendor := Nat → GeminiRequest → GeminiOk ⊕ String

/-- `GeminiProvider._extract_text_from_response`: first candidate's first
part when the candidate list and its content are truthy (an empty parts
list raises `IndexError`), else `str(response)`. -/
def extractTextFromResponse (r : GeminiOk) : String ⊕ String :=
  match r.candidates with
  | c :: _ =>
    match c.content with
    | some parts =>
      match parts with
      | p :: _ => .inl p
      | [] => .inr "list index out of range"
    | none => .inl r.reprStr
  | [] => .inl r.reprStr

/-- Content extraction in `GeminiProvider.generate`: `response.text` when
the attribute exists, else the fallback extraction. -/
def geminiContent (r : GeminiOk) : String ⊕ String :=
  match r.text with
  | some t => .inl t
  | none => extractTextFromResponse r

/-- Embedding of `GeminiProvider._handle_error`: classification is purely
textual on `str(error).lower()`.  A message containing "quota" is the
rate-limit branch; else "authentication" or "api key" is the auth branch;
else any error at all retries whenever budget and context remain. -/
def geminiHandleError (msg : String) (retryCount : Nat)
    (prompt model : Option String) : HDecision :=
  if pyContains (lowerStr msg) "quota" ∧ retryCount < 3 then
    { sleeps := [2 ^ retryCount],
      act := if pyTruthyStr prompt ∧ pyTruthyStr model then .retry else .reraise }
  else if pyContains (lowerStr msg) "authentication" ∨ pyContains (lowerStr msg) "api key" then
    { sleeps := [], act := .raiseMsg ("Google Gemini API key is invalid: " ++ msg) }
  else if retryCount < 3 ∧ pyTruthyStr prompt ∧ pyTruthyStr model then
    { sleeps := [1], act := .retry }
  else
    { sleeps := [], act := .raiseMsg ("Error occurred when calling Google Gemini API: " ++ msg) }

/-- One `generate` invocation of the Gemini adapter; like the others it
always re-enters `_handle_error` with `retry_count=0`. -/
def geminiGenLoop (vendor : GeminiVendor) (prompt model : String) :
    Nat → List GeminiRequest → List Nat → Run GeminiRequest String
  | 0, reqs, sl => { result := .hung, requests := reqs, sleeps := sl }
  | fuel + 1, reqs, sl =>
    let req : GeminiRequest :=
      { modelName := model, maxOutputTokens := 2048, topK := 40, prompt := prompt }
    let outcome : (String × Option Nat) ⊕ String :=
      match vendor reqs.length req with
      | .inl ok =>
        match geminiContent ok with
        | .inl c => .inl (c, ok.usage)
        | .inr msg => .inr msg
      | .inr msg => .inr msg
    match outcome with
    | .inl (c, usage) =>
      { result := .ok { model := model, content := c, tokens := usage },
        requests := reqs ++ [req], sleeps := sl }
    | .inr msg =>
      let d := geminiHandleError msg 0 (some prompt) (some model)
      match d.act with
      | .retry => geminiGenLoop vendor prompt model fuel (reqs ++ [req]) (sl ++ d.sleeps)
      | .raiseMsg m =>
        { result := .valueError m, requests := reqs ++ [req], sleeps := sl ++ d.sleeps }
      | .reraise =>
        { result := .reraised msg, requests := reqs ++ [req], sleeps := sl ++ d.sleeps }

/-- `GeminiProvider.generate` from a fresh call. -/
def geminiGenerate (vendor : GeminiVendor) (prompt model : String) (fuel : Nat) :
    Run GeminiRequest String :=
  geminiGenLoop vendor prompt model fuel [] []

/-- The `Provider` enumeration (data_types.py). -/
inductive Provider where
  | openai
  | anthropic
  | gemini
  | groq
  | deepseek
  | ollama
deriving DecidableEq

/-- Embedding of `Provider.from_prefix`: the fixed twelve-entry table keyed
by `prefix.lower()`; an unknown input raises
`ValueError(f"Unknown provider prefix: {prefix}")` naming the original
input. -/
def resolveProvider (p : String) : Except String Provider :=
  let l := lowerStr p
  if l = "o" then .ok .openai
  else if l = "openai" then .ok .openai
  else if l = "a" then .ok .anthropic
  else if l = "anthropic" then .ok .anthropic
  else if l = "g" then .ok .gemini
  else if l = "gemini" then .ok .gemini
  else if l = "q" then .ok .groq
  else if l = "groq" then .ok .groq
  else if l = "d" then .ok .deepseek
  else if l = "deepseek" then .ok .deepseek
  else if l = "l" then .ok .ollama
  else if l = "ollama" then .ok .ollama
  else .error ("Unknown provider prefix: " ++ p)

/-- Lexicographic code-point order on character lists, the order Python
`sorted` uses on strings. -/
def lexLe : List Char → List Char → Bool
  | [], _ => true
  | _ :: _, [] => false
  | a :: as, b :: bs =>
    if a.toNat < b.toNat then true
    else if b.toNat < a.toNat then false
    else lexLe as bs

/-- Lexicographic code-point order on strings. -/
def strLe (a b : String) : Bool := lexLe a.toList b.toList

/-- Insert into a lexicographically sorted list. -/
def insertSorted (x : String) : List String → List String
  | [] => [x]
  | y :: l => if strLe x y then x :: y :: l else y :: insertSorted x l

/-- Model of Python `sorted` on a list of strings (insertion sort). -/
def sortStrings : List String → List String
  | [] => []
  | x :: l => insertSorted x (sortStrings l)

/-- `OpenAIProvider.list_models` on a successful vendor catalog reply:
keep ids starting with `gpt-` or `text-`, return them sorted. -/
def openaiListModels (ids : List String) : List String :=
  sortStrings (ids.filter (fun id => pyStartsWith id "gpt-" || pyStartsWith id "text-"))

/-- `AnthropicProvider.list_models`: a static list, no vendor interaction.
The `client` argument stands for the adapter state the method receives
and ignores. -/
def anthropicListModels {α : Type} (_client : α) : List String :=
  ["claude-3-opus-20240229",
   "claude-3-sonnet-20240229",
   "claude-3-haiku-20240307",
   "claude-3-7-sonnet-20250219",
   "claude-2.1",
   "claude-2.0",
   "claude-instant-1.2"]

/-- A vendor that raises a generic SDK `APIError` on every attempt. -/
def alwaysApiErrAnth (msg : String) : AnthVendor := fun _ _ => Sum.inr (.api msg)

theorem mem_dropLast_of_getLast?_ne {l : List Char} {c d : Char}
    (hd : l.getLast? = some d) (hc : c ∈ l) (hne : c ≠ d) : c ∈ l.dropLast := by
  have hnil : l ≠ [] := by rintro rfl; simp at hd
  have hg : l.getLast hnil = d := by
    have := List.getLast?_eq_getLast l hnil
    rw [this] at hd
    exact Option.some.inj hd
  have hsplit := List.dropLast_append_getLast hnil
  rw [hg] at hsplit
  rcases (List.mem_append.mp (by rw [hsplit]; exact hc)) with h | h
  · exact h
  · simp at h; exact absurd h hne

theorem matchNumSuffix_of_colon {r : List Char} (h : ':' ∈ r) :
    matchNumSuffix r = none := by
  have h1 : ':' ∈ stripNL r := by
    unfold stripNL
    split
    · exact mem_dropLast_of_getLast?_ne (by assumption) h (by decide)
    · exact h
  have h2 : ':' ∈ (splitUnit (stripNL r)).2 := by
    unfold splitUnit
    split
    · exact mem_dropLast_of_getLast?_ne (by assumption) h1 (by decide)
    · exact mem_dropLast_of_getLast?_ne (by assumption) h1 (by decide)
    · exact h1
  have hall : (splitUnit (stripNL r)).2.all pyDigit = false := by
    rw [Bool.eq_false_iff]
    intro hall
    rw [List.all_eq_true] at hall
    exact absurd (hall ':' h2) (by decide)
  simp [matchNumSuffix, hall]

theorem pyDigit_ne (c : Char) (hc : pyDigit c = true) :
    c ≠ '\n' ∧ c ≠ 'k' ∧ c ≠ 'm' := by
  refine ⟨?_, ?_, ?_⟩ <;> rintro rfl <;> simp [pyDigit] at hc

theorem matchNumSuffix_digits {ds : List Char} (h1 : ds ≠ [])
    (h2 : ds.all pyDigit = true) : matchNumSuffix ds = some (natOfDigits ds) := by
  obtain ⟨c, hc⟩ : ∃ c, ds.getLast? = some c := by
    rw [List.getLast?_eq_getLast ds h1]; exact ⟨_, rfl⟩
  have hcd : pyDigit c = true := by
    rw [List.all_eq_true] at h2
    refine h2 c ?_
    rw [List.getLast?_eq_getLast ds h1] at hc
    rw [← Option.some.inj hc]
    exact List.getLast_mem h1
  obtain ⟨hn, hk, hm⟩ := pyDigit_ne c hcd
  have hstrip : stripNL ds = ds := by
    unfold stripNL
    rw [if_neg]
    rw [hc]
    intro h; exact hn (Option.some.inj h)
  have hsplit : splitUnit ds = (1, ds) := by
    unfold splitUnit
    split
    · rename_i heq; rw [hc] at heq; exact absurd (Option.some.inj heq) hk
    · rename_i heq; rw [hc] at heq; exact absurd (Option.some.inj heq) hm
    · rfl
  have hne : ds.isEmpty = false := by
    cases ds
    · exact absurd rfl h1
    · rfl
  simp [matchNumSuffix, hstrip, hsplit, hne, h2]

theorem matchNumSuffix_digits_unit {ds : List Char} {u : Char} {mult : Nat}
    (h1 : ds ≠ []) (h2 : ds.all pyDigit = true)
    (hu : (u = 'k' ∧ mult = 1024) ∨ (u = 'm' ∧ mult = 1024 * 1024)) :
    matchNumSuffix (ds ++ [u]) = some (natOfDigits ds * mult) := by
  have hlast : (ds ++ [u]).getLast? = some u := List.getLast?_concat ds
  have hdrop : (ds ++ [u]).dropLast = ds := List.dropLast_concat
  have hune : u ≠ '\n' := by
    rcases hu with ⟨rfl, _⟩ | ⟨rfl, _⟩ <;> decide
  have hstrip : stripNL (ds ++ [u]) = ds ++ [u] := by
    unfold stripNL
    rw [if_neg]
    rw [hlast]
    intro h; exact hune (Option.some.inj h)
  have hsplit : splitUnit (ds ++ [u]) = (mult, ds) := by
    unfold splitUnit
    rcases hu with ⟨rfl, rfl⟩ | ⟨rfl, rfl⟩
    · split
      · rename_i heq; rw [hdrop]
      · rename_i heq; rw [hlast] at heq; exact absurd (Option.some.inj heq) (by decide)
      · rename_i hne _; exact absurd hlast (hne)
    · split
      · rename_i heq; rw [hlast] at heq; exact absurd (Option.some.inj heq) (by decide)
      · rename_i heq; rw [hdrop]
      · rename_i _ hne; exact absurd hlast (hne)
  have hne : ds.isEmpty = false := by
    cases ds
    · exact absurd rfl h1
    · rfl
  simp [matchNumSuffix, hstrip, hsplit, hne, h2]

theorem contains_eq_false_of_not_mem {l : List Char} {c : Char} (h : c ∉ l) :
    l.contains c = false := by
  rw [Bool.eq_false_iff]
  intro hc
  obtain ⟨b, hb, hbeq⟩ := List.contains_iff_exists_mem_beq.mp hc
  exact h (eq_of_beq hbeq ▸ hb)

theorem scanColon_through {good : List Char} {v : Nat}
    (hg : matchNumSuffix good = some v) :
    ∀ (name acc : List Char), '\n' ∉ name → '\n' ∉ acc →
      scanColon acc (name ++ ':' :: good) = some (acc.reverse ++ name, v) := by
  intro name
  induction name with
  | nil =>
    intro acc _ hacc
    simp only [List.nil_append, scanColon, if_pos rfl, hg,
      contains_eq_false_of_not_mem hacc]
    simp
  | cons c tl ih =>
    intro acc hname hacc
    have hc_nl : c ≠ '\n' := fun h => hname (h ▸ List.mem_cons_self c tl)
    have htl : '\n' ∉ tl := fun h => hname (List.mem_cons_of_mem c h)
    by_cases hc : c = ':'
    · have hmid : matchNumSuffix (tl ++ ':' :: good) = none :=
        matchNumSuffix_of_colon (List.mem_append_right tl (List.mem_cons_self ':' good))
      have := ih (c :: acc) htl (by
        intro h
        rcases List.mem_cons.mp h with h | h
        · exact hc_nl h.symm
        · exact hacc h)
      simp only [List.cons_append, scanColon, if_pos hc, hc, hmid, List.append_eq] at this ⊢
      rw [this]
      simp
    · have := ih (c :: acc) htl (by
        intro h
        rcases List.mem_cons.mp h with h | h
        · exact hc_nl h.symm
        · exact hacc h)
      simp only [List.cons_append, scanColon, if_neg hc, List.append_eq] at this ⊢
      rw [this]
      simp

theorem parseModelCore_suffix {name ds unit : List Char} {mult : Nat}
    (hnl : '\n' ∉ name) (hds : ds ≠ []) (hdig : ds.all pyDigit = true)
    (hu : (unit = [] ∧ mult = 1) ∨ (unit = ['k'] ∧ mult = 1024) ∨
          (unit = ['m'] ∧ mult = 1024 * 1024)) :
    parseModelCore (name ++ ':' :: (ds ++ unit)) = (name, some (natOfDigits ds * mult)) := by
  have hg : matchNumSuffix (ds ++ unit) = some (natOfDigits ds * mult) := by
    rcases hu with ⟨rfl, rfl⟩ | ⟨rfl, rfl⟩ | ⟨rfl, rfl⟩
    · rw [List.append_nil, matchNumSuffix_digits hds hdig, Nat.mul_one]
    · exact matchNumSuffix_digits_unit hds hdig (Or.inl ⟨rfl, rfl⟩)
    · exact matchNumSuffix_digits_unit hds hdig (Or.inr ⟨rfl, rfl⟩)
  have hscan := scanColon_through hg name [] hnl (by simp)
  simp only [List.reverse_nil, List.nil_append] at hscan
  simp [parseModelCore, hscan]

theorem lastColonSplit_some_colon_mem :
    ∀ {l : List Char} {a b : List Char}, lastColonSplit l = some (a, b) → ':' ∈ l := by
  intro l
  induction l with
  | nil => intro a b h; simp [lastColonSplit] at h
  | cons c rest ih =>
    intro a b h
    simp only [lastColonSplit] at h
    rcases h' : lastColonSplit rest with _ | ⟨a', b'⟩
    · rw [h'] at h
      by_cases hc : c = ':'
      · exact hc ▸ List.mem_cons_self c rest
      · rw [if_neg hc] at h; exact absurd h (by simp)
    · exact List.mem_cons_of_mem c (ih h')

theorem scanColon_of_noSuffix :
    ∀ (cs : List Char), noSuffixInput cs = true → ∀ (acc : List Char), scanColon acc cs = none := by
  intro cs
  induction cs with
  | nil => intro _ acc; rfl
  | cons c rest ih =>
    intro h acc
    unfold noSuffixInput at h ih
    by_cases hc : c = ':'
    · rcases h' : lastColonSplit rest with _ | ⟨a, b⟩
      · -- no colon in rest: the current colon is the last one and its suffix fails
        have hout : lastColonSplit (c :: rest) = some ([], rest) := by
          simp [lastColonSplit, h', if_pos hc]
        rw [hout] at h
        have hnone : matchNumSuffix rest = none := by
          rw [← Option.isNone_iff_eq_none]; exact h
        simp only [scanColon, if_pos hc, hnone]
        exact ih (by rw [h']) (c :: acc)
      · -- a later colon exists, so this suffix contains a colon and fails
        have hnone : matchNumSuffix rest = none :=
          matchNumSuffix_of_colon (lastColonSplit_some_colon_mem h')
        have hout : lastColonSplit (c :: rest) = some (c :: a, b) := by
          simp [lastColonSplit, h']
        rw [hout] at h
        simp only [scanColon, if_pos hc, hnone]
        exact ih (by rw [h']; exact h) (c :: acc)
    · rcases h' : lastColonSplit rest with _ | ⟨a, b⟩
      · simp only [scanColon, if_neg hc]
        exact ih (by rw [h']) (c :: acc)
      · have hout : lastColonSplit (c :: rest) = some (c :: a, b) := by
          simp [lastColonSplit, h']
        rw [hout] at h
        simp only [scanColon, if_neg hc]
        exact ih (by rw [h']; exact h) (c :: acc)

theorem parseModelCore_noSuffix {cs : List Char} (h : noSuffixInput cs = true) :
    parseModelCore cs = (cs, none) := by
  simp [parseModelCore, scanColon_of_noSuffix cs h []]

theorem anthropicGenLoop_ok_model {vendor : AnthVendor} {prompt model : String} :
    ∀ {fuel : Nat} {reqs : List AnthRequest} {sl : List Nat} {resp : PromptResponse},
      (anthropicGenLoop vendor prompt model fuel reqs sl).result = .ok resp →
      resp.model = model := by
  intro fuel
  induction fuel with
  | zero => intro reqs sl resp h; simp [anthropicGenLoop] at h
  | succ fuel ih =>
    intro reqs sl resp h
    simp only [anthropicGenLoop] at h
    split at h
    · simp only [RunResult.ok.injEq] at h
      rw [← h]
    · split at h
      · exact ih h
      · simp at h
      · simp at h

theorem openaiGenLoop_ok_model {vendor : OpenAIVendor} {prompt model : String} :
    ∀ {fuel : Nat} {reqs : List OpenAIRequest} {sl : List Nat} {resp : PromptResponse},
      (openaiGenLoop vendor prompt model fuel reqs sl).result = .ok resp →
      resp.model = model := by
  intro fuel
  induction fuel with
  | zero => intro reqs sl resp h; simp [openaiGenLoop] at h
  | succ fuel ih =>
    intro reqs sl resp h
    simp only [openaiGenLoop] at h
    split at h
    · simp only [RunResult.ok.injEq] at h
      rw [← h]
    · split at h
      · exact ih h
      · simp at h
      · simp at h

theorem geminiGenLoop_ok_model {vendor : GeminiVendor} {prompt model : String} :
    ∀ {fuel : Nat} {reqs : List GeminiRequest} {sl : List Nat} {resp : PromptResponse},
      (geminiGenLoop vendor prompt model fuel reqs sl).result = .ok resp →
      resp.model = model := by
  intro fuel
  induction fuel with
  | zero => intro reqs sl resp h; simp [geminiGenLoop] at h
  | succ fuel ih =>
    intro reqs sl resp h
    simp only [geminiGenLoop] at h
    split at h
    · simp only [RunResult.ok.injEq] at h
      rw [← h]
    · split at h
      · exact ih h
      · simp at h
      · simp at h

theorem anthropicGenLoop_apiFail {msg : String} :
    ∀ (fuel : Nat) (reqs : List AnthRequest) (sl : List Nat),
      anthropicGenLoop (alwaysApiErrAnth msg) "hi" "claude-2.0" fuel reqs sl =
        { result := .hung,
          requests := reqs ++ List.replicate fuel (anthBuildRequest "hi" "claude-2.0"),
          sleeps := sl ++ List.replicate fuel 1 } := by
  intro fuel
  induction fuel with
  | zero => intro reqs sl; simp [anthropicGenLoop]
  | succ fuel ih =>
    intro reqs sl
    have hd : sdkHandleError "Anthropic API key is invalid: "
        "Anthropic API error: " "Error occurred when calling Anthropic API: "
        (.api msg) 0 (some "hi") (some "claude-2.0") = { sleeps := [1], act := .retry } := by
      rfl
    simp only [anthropicGenLoop, alwaysApiErrAnth, hd]
    rw [ih]
    simp [List.replicate_succ]

theorem anthropicGenLoop_first_request {vendor : AnthVendor} {prompt model : String}
    {fuel : Nat} {reqs : List AnthRequest} {sl : List Nat} :
    (anthropicGenLoop vendor prompt model (fuel + 1) reqs sl).requests.head? =
      (reqs ++ [anthBuildRequest prompt model]).head? := by
  have hext : ∀ (f : Nat) (rs : List AnthRequest) (s : List Nat),
      ∃ t, (anthropicGenLoop vendor prompt model f rs s).requests = rs ++ t := by
    intro f
    induction f with
    | zero => intro rs s; exact ⟨[], by simp [anthropicGenLoop]⟩
    | succ f ih =>
      intro rs s
      simp only [anthropicGenLoop]
      split
      · exact ⟨[anthBuildRequest prompt model], rfl⟩
      · split
        · obtain ⟨t, ht⟩ := ih (rs ++ [anthBuildRequest prompt model]) _
          exact ⟨[anthBuildRequest prompt model] ++ t, by rw [ht, List.append_assoc]⟩
        · exact ⟨[anthBuildRequest prompt model], rfl⟩
        · exact ⟨[anthBuildRequest prompt model], rfl⟩
  simp only [anthropicGenLoop]
  split
  · rfl
  · split
    · obtain ⟨t, ht⟩ := hext _ (reqs ++ [anthBuildRequest prompt model]) _
      rw [ht, List.append_assoc]
      rcases reqs with _ | ⟨r, rs⟩
      · simp
      · simp
    · rfl
    · rfl

theorem lexLe_total : ∀ (a b : List Char), lexLe a b = true ∨ lexLe b a = true := by
  intro a
  induction a with
  | nil => intro b; exact Or.inl rfl
  | cons x xs ih =>
    intro b
    rcases b with _ | ⟨y, ys⟩
    · exact Or.inr rfl
    · rcases Nat.lt_trichotomy x.toNat y.toNat with h | h | h
      · left; simp [lexLe, h]
      · have h1 : ¬ x.toNat < y.toNat := by omega
        have h2 : ¬ y.toNat < x.toNat := by omega
        rcases ih ys with hl | hl
        · left; simp [lexLe, h1, h2, hl]
        · right; simp [lexLe, h1, h2, hl]
      · right; simp [lexLe, h]

theorem lexLe_trans : ∀ {a b c : List Char},
    lexLe a b = true → lexLe b c = true → lexLe a c = true := by
  intro a
  induction a with
  | nil => intro b c _ _; rfl
  | cons x xs ih =>
    intro b c hab hbc
    rcases b with _ | ⟨y, ys⟩
    · simp [lexLe] at hab
    · rcases c with _ | ⟨z, zs⟩
      · simp [lexLe] at hbc
      · simp only [lexLe] at hab hbc ⊢
        rcases Nat.lt_trichotomy x.toNat y.toNat with h1 | h1 | h1 <;>
          rcases Nat.lt_trichotomy y.toNat z.toNat with h2 | h2 | h2
        all_goals {
          first
          | (have hxz : x.toNat < z.toNat := by omega
             simp [hxz])
          | (have hn1 : ¬ x.toNat < z.toNat := by omega
             have hn2 : ¬ z.toNat < x.toNat := by omega
             have hb1 : ¬ x.toNat < y.toNat := by omega
             have hb2 : ¬ y.toNat < x.toNat := by omega
             have hc1 : ¬ y.toNat < z.toNat := by omega
             have hc2 : ¬ z.toNat < y.toNat := by omega
             simp only [if_neg hb1, if_neg hb2] at hab
             simp only [if_neg hc1, if_neg hc2] at hbc
             simp only [if_neg hn1, if_neg hn2]
             exact ih hab hbc)
          | (exfalso
             first
             | (have hb1 : ¬ x.toNat < y.toNat := by omega
                have hb2 : y.toNat < x.toNat := by omega
                simp [hb1, hb2] at hab)
             | (have hc1 : ¬ y.toNat < z.toNat := by omega
                have hc2 : z.toNat < y.toNat := by omega
                simp [hc1, hc2] at hbc))
        }

theorem strLe_total (a b : String) : strLe a b = true ∨ strLe b a = true :=
  lexLe_total a.toList b.toList

theorem strLe_trans {a b c : String} (h1 : strLe a b = true) (h2 : strLe b c = true) :
    strLe a c = true :=
  lexLe_trans h1 h2

theorem insertSorted_perm (x : String) :
    ∀ (l : List String), (insertSorted x l).Perm (x :: l) := by
  intro l
  induction l with
  | nil => simp [insertSorted]
  | cons y l ih =>
    simp only [insertSorted]
    split
    · exact List.Perm.refl _
    · exact (List.Perm.cons y ih).trans (List.Perm.swap x y l)

theorem sortStrings_perm : ∀ (l : List String), (sortStrings l).Perm l := by
  intro l
  induction l with
  | nil => simp [sortStrings]
  | cons x l ih =>
    exact (insertSorted_perm x (sortStrings l)).trans (List.Perm.cons x ih)

theorem insertSorted_pairwise {x : String} :
    ∀ {l : List String}, List.Pairwise (fun a b => strLe a b = true) l →
      List.Pairwise (fun a b => strLe a b = true) (insertSorted x l) := by
  intro l
  induction l with
  | nil => intro _; simp [insertSorted]
  | cons y l ih =>
    intro h
    rcases List.pairwise_cons.mp h with ⟨hy, hl⟩
    simp only [insertSorted]
    split
    · rename_i hxy
      refine List.pairwise_cons.mpr ⟨?_, h⟩
      intro b hb
      rcases List.mem_cons.mp hb with rfl | hb
      · exact hxy
      · exact strLe_trans hxy (hy b hb)
    · rename_i hxy
      have hyx : strLe y x = true := by
        rcases strLe_total x y with h' | h'
        · exact absurd h' hxy
        · exact h'
      refine List.pairwise_cons.mpr ⟨?_, ih hl⟩
      intro b hb
      rcases List.mem_cons.mp ((insertSorted_perm x l).mem_iff.mp hb) with rfl | hb
      · exact hyx
      · exact hy b hb

theorem sortStrings_pairwise :
    ∀ (l : List String), List.Pairwise (fun a b => strLe a b = true) (sortStrings l) := by
  intro l
  induction l with
  | nil => simp [sortStrings]
  | cons x l ih => exact insertSorted_pairwise ih

/-- C1: the claim says a persistently failing generic vendor API error makes
`generate` raise ProviderError after exactly 4 total attempts.  The code
instead re-enters `_handle_error` with `retry_count=0` on every retry, so
the bound never triggers: for every step budget `fuel`, the run on a vendor
that always raises a generic `APIError` is still retrying after `fuel`
attempts and `fuel` one-second sleeps, and has raised nothing. -/
theorem anthropic_generic_api_error_retries_unbounded (fuel : Nat) :
    (anthropicGenerate (alwaysApiErrAnth "boom") "hi" "claude-2.0" fuel).result = .hung ∧
    (anthropicGenerate (alwaysApiErrAnth "boom") "hi" "claude-2.0" fuel).requests.length = fuel ∧
    (anthropicGenerate (alwaysApiErrAnth "boom") "hi" "claude-2.0" fuel).sleeps =
      List.replicate fuel 1 := by
  unfold anthropicGenerate
  rw [anthropicGenLoop_apiFail]
  simp

/-- C2 counterexample: the OpenAI adapter never invokes the model-option
parser; `generate("Explain recursion", "base-model:4k")` hands the vendor
the raw string `base-model:4k` (via the completion endpoint, since it does
not start with `gpt-`), not the parsed base name, and no reasoning-budget
parameter exists in its request shape. -/
theorem openai_generate_passes_raw_model_cex :
    (openaiGenerate (fun _ _ => Sum.inl ⟨["ok"], none⟩)
        "Explain recursion" "base-model:4k" 1).requests =
      [OpenAIRequest.completion "base-model:4k" "Explain recursion" 1024] ∧
    "base-model:4k" ≠ "base-model" := by decide

/-- C2 amended: only the Anthropic adapter decomposes the model string via
the model-option parser before calling the vendor: its first vendor request
always carries the parsed base name and the truthiness-filtered parsed
token budget, and in the concrete scenario the vendor receives model
`base-model` with `thinking_tokens=4096` while the response echoes
`base-model:4k`. -/
theorem anthropic_generate_parses_model_option
    (vendor : AnthVendor) (prompt model : String) (fuel : Nat) (hf : 1 ≤ fuel) :
    (anthropicGenerate vendor prompt model fuel).requests.head? =
      some { model := (parseModelWithThinkingTokens model).1, maxTokens := 1024,
             content := prompt,
             thinkingTokens := pyTruthyTok (parseModelWithThinkingTokens model).2 } ∧
    anthropicGenerate (fun _ _ => Sum.inl ⟨["stub"], none⟩)
        "Explain recursion" "base-model:4k" 1 =
      { result := .ok { model := "base-model:4k", content := "stub", tokens := none },
        requests := [{ model := "base-model", maxTokens := 1024,
                       content := "Explain recursion", thinkingTokens := some 4096 }],
        sleeps := [] } := by
  obtain ⟨f, rfl⟩ : ∃ f, fuel = f + 1 := ⟨fuel - 1, by omega⟩
  constructor
  · rw [anthropicGenerate, anthropicGenLoop_first_request]
    rfl
  · decide

theorem anthropic_generate_parses_model_option_witness :
    (anthropicGenerate (fun _ _ => Sum.inl ⟨["stub"], none⟩)
        "Explain recursion" "base-model:4k" 1).requests.head? =
      some { model := (parseModelWithThinkingTokens "base-model:4k").1, maxTokens := 1024,
             content := "Explain recursion",
             thinkingTokens := pyTruthyTok (parseModelWithThinkingTokens "base-model:4k").2 } :=
  (anthropic_generate_parses_model_option (fun _ _ => Sum.inl ⟨["stub"], none⟩)
    "Explain recursion" "base-model:4k" 1 (by decide)).1

/-- C3 counterexample: `a\nb:12` has the shape `<name>:<digits>` with name
`a\nb` and digits `12`, but the parser returns the whole input unchanged,
because the regex group `(.*?)` cannot match the newline in the name. -/
theorem parse_newline_name_cex :
    parseModelCore ("a\nb:12".toList) = ("a\nb:12".toList, none) ∧
    "a\nb:12".toList = "a\nb".toList ++ ':' :: ("12".toList ++ []) ∧
    "12".toList.all pyDigit = true ∧
    ("a\nb:12".toList, (none : Option Nat)) ≠ ("a\nb".toList, some 12) := by decide

/-- C3 amended: for every raw model string of the form
`<name>:<digits><unit>` whose name part contains no newline character, the
parser returns the name as base model and the digit value scaled by the
unit (1 for no unit, 1024 for `k`, 1024*1024 for `m`). -/
theorem parse_model_option_suffix_amended (name ds unit : List Char) (mult : Nat)
    (hnl : '\n' ∉ name) (hds : ds ≠ []) (hdig : ds.all pyDigit = true)
    (hu : (unit = [] ∧ mult = 1) ∨ (unit = ['k'] ∧ mult = 1024) ∨
          (unit = ['m'] ∧ mult = 1024 * 1024)) :
    parseModelWithThinkingTokens (String.mk (name ++ ':' :: (ds ++ unit))) =
      (String.mk name, some (natOfDigits ds * mult)) ∧
    parseModelCore (name ++ ':' :: (ds ++ unit)) = (name, some (natOfDigits ds * mult)) := by
  have h := parseModelCore_suffix hnl hds hdig hu
  refine ⟨?_, h⟩
  have htl : (String.mk (name ++ ':' :: (ds ++ unit))).toList = name ++ ':' :: (ds ++ unit) := rfl
  simp [parseModelWithThinkingTokens, htl, h]

theorem parse_model_option_suffix_amended_witness :
    (parseModelWithThinkingTokens (String.mk ("base-model".toList ++ ':' :: ("4".toList ++ ['k']))) =
      (String.mk "base-model".toList, some (natOfDigits "4".toList * 1024)) ∧
     parseModelCore ("base-model".toList ++ ':' :: ("4".toList ++ ['k'])) =
      ("base-model".toList, some (natOfDigits "4".toList * 1024))) ∧
    natOfDigits "4".toList * 1024 = 4096 :=
  ⟨parse_model_option_suffix_amended "base-model".toList "4".toList ['k'] 1024
    (by decide) (by decide) (by decide) (Or.inr (Or.inl ⟨rfl, rfl⟩)), by decide⟩

/-- C4 counterexample: in `model:5\n` the trailing colon is followed by a
digit that is not at the end of the string (a newline follows), so the
claim demands the whole input back; but Python `$` also matches just
before a trailing newline, and the parser returns `("model", 5)`. -/
theorem parse_trailing_newline_cex :
    parseModelCore ("model:5\n".toList) = ("model".toList, some 5) ∧
    ("model".toList, some 5) ≠ ("model:5\n".toList, (none : Option Nat)) := by decide

/-- C4 amended: the parser is total, and for every input with no colon at
all, or whose last colon is not immediately followed by digits plus an
optional lowercase k/m unit at the end of the string or just before a
single trailing newline (the class `noSuffixInput`), it returns the whole
input as base model with no option value. -/
theorem parse_no_suffix_identity_amended (cs : List Char) (h : noSuffixInput cs = true) :
    parseModelWithThinkingTokens (String.mk cs) = (String.mk cs, none) ∧
    parseModelCore cs = (cs, none) := by
  have hcore := parseModelCore_noSuffix h
  refine ⟨?_, hcore⟩
  have htl : (String.mk cs).toList = cs := rfl
  simp [parseModelWithThinkingTokens, htl, hcore]

theorem parse_no_suffix_identity_amended_witness :
    parseModelWithThinkingTokens (String.mk ("model:abc".toList)) =
      (String.mk "model:abc".toList, none) ∧
    parseModelCore ("model:abc".toList) = ("model:abc".toList, none) :=
  parse_no_suffix_identity_amended "model:abc".toList (by decide)

/-- C5 counterexample: a vendor failure whose message contains "api key"
(an authentication cause in the claim's sense) but also "quota" is
classified by the Gemini adapter as rate-limited first: instead of raising
AuthError immediately with one attempt and no waits, it backs off and
retries (two attempts and two sleeps within two budget steps, and still no
AuthError). -/
theorem gemini_quota_api_key_retry_cex :
    pyContains (lowerStr "Quota exceeded for this API key") "api key" = true ∧
    (geminiGenerate (fun _ _ => Sum.inr "Quota exceeded for this API key")
        "p" "m" 2).requests.length = 2 ∧
    (geminiGenerate (fun _ _ => Sum.inr "Quota exceeded for this API key")
        "p" "m" 2).sleeps = [1, 1] ∧
    (geminiGenerate (fun _ _ => Sum.inr "Quota exceeded for this API key")
        "p" "m" 2).result = .hung := by decide

/-- C5 amended: an authentication failure is surfaced immediately (one
vendor attempt, zero sleeps) as the key-invalid ValueError by every
adapter, provided that for the Gemini adapter - which classifies purely by
message text - the message does not also contain "quota", since its quota
check runs first. -/
theorem auth_error_immediate_amended :
    (∀ (vendor : AnthVendor) (prompt model msg : String) (fuel : Nat), 1 ≤ fuel →
      (∀ i r, vendor i r = Sum.inr (.auth msg)) →
      (anthropicGenerate vendor prompt model fuel).result =
          .valueError ("Anthropic API key is invalid: " ++ msg) ∧
      (anthropicGenerate vendor prompt model fuel).requests.length = 1 ∧
      (anthropicGenerate vendor prompt model fuel).sleeps = []) ∧
    (∀ (vendor : OpenAIVendor) (prompt model msg : String) (fuel : Nat), 1 ≤ fuel →
      (∀ i r, vendor i r = Sum.inr (.auth msg)) →
      (openaiGenerate vendor prompt model fuel).result =
          .valueError ("OpenAI API key is invalid: " ++ msg) ∧
      (openaiGenerate vendor prompt model fuel).requests.length = 1 ∧
      (openaiGenerate vendor prompt model fuel).sleeps = []) ∧
    (∀ (vendor : GeminiVendor) (prompt model msg : String) (fuel : Nat), 1 ≤ fuel →
      (∀ i r, vendor i r = Sum.inr msg) →
      (pyContains (lowerStr msg) "authentication" = true ∨
        pyContains (lowerStr msg) "api key" = true) →
      pyContains (lowerStr msg) "quota" = false →
      (geminiGenerate vendor prompt model fuel).result =
          .valueError ("Google Gemini API key is invalid: " ++ msg) ∧
      (geminiGenerate vendor prompt model fuel).requests.length = 1 ∧
      (geminiGenerate vendor prompt model fuel).sleeps = []) := by
  refine ⟨?_, ?_, ?_⟩
  · intro vendor prompt model msg fuel hf hv
    obtain ⟨f, rfl⟩ : ∃ f, fuel = f + 1 := ⟨fuel - 1, by omega⟩
    simp [anthropicGenerate, anthropicGenLoop, hv, sdkHandleError,
      SdkErr.isRateLimitE, SdkErr.isAuthE, SdkErr.msg]
  · intro vendor prompt model msg fuel hf hv
    obtain ⟨f, rfl⟩ : ∃ f, fuel = f + 1 := ⟨fuel - 1, by omega⟩
    simp [openaiGenerate, openaiGenLoop, hv, sdkHandleError,
      SdkErr.isRateLimitE, SdkErr.isAuthE, SdkErr.msg]
  · intro vendor prompt model msg fuel hf hv hauth hq
    obtain ⟨f, rfl⟩ : ∃ f, fuel = f + 1 := ⟨fuel - 1, by omega⟩
    rcases hauth with hauth | hauth <;>
      simp [geminiGenerate, geminiGenLoop, hv, geminiHandleError, hq, hauth]

theorem auth_error_immediate_amended_witness :
    ((anthropicGenerate (fun _ _ => Sum.inr (SdkErr.auth "bad")) "p" "m" 1).result =
        .valueError ("Anthropic API key is invalid: " ++ "bad") ∧
      (anthropicGenerate (fun _ _ => Sum.inr (SdkErr.auth "bad")) "p" "m" 1).requests.length = 1 ∧
      (anthropicGenerate (fun _ _ => Sum.inr (SdkErr.auth "bad")) "p" "m" 1).sleeps = []) ∧
    ((geminiGenerate (fun _ _ => Sum.inr "Invalid API Key") "p" "m" 1).result =
        .valueError ("Google Gemini API key is invalid: " ++ "Invalid API Key") ∧
      (geminiGenerate (fun _ _ => Sum.inr "Invalid API Key") "p" "m" 1).requests.length = 1 ∧
      (geminiGenerate (fun _ _ => Sum.inr "Invalid API Key") "p" "m" 1).sleeps = []) :=
  ⟨auth_error_immediate_amended.1 _ "p" "m" "bad" 1 (by decide) (fun _ _ => rfl),
   auth_error_immediate_amended.2.2 _ "p" "m" "Invalid API Key" 1 (by decide) (fun _ _ => rfl)
     (Or.inr (by decide)) (by decide)⟩

/-- C6 counterexample: a failure that is neither a rate-limit/quota signal,
nor an authentication signal, nor a vendor-reported API error (a network
error message) is nonetheless retried by the Gemini adapter, whose third
branch retries any remaining error whenever retry context is present: two
attempts and two sleeps within two budget steps, no terminal
ProviderError. -/
theorem gemini_network_error_retry_cex :
    pyContains (lowerStr "connection refused") "quota" = false ∧
    pyContains (lowerStr "connection refused") "authentication" = false ∧
    pyContains (lowerStr "connection refused") "api key" = false ∧
    (geminiGenerate (fun _ _ => Sum.inr "connection refused") "p" "m" 2).requests.length = 2 ∧
    (geminiGenerate (fun _ _ => Sum.inr "connection refused") "p" "m" 2).sleeps = [1, 1] ∧
    (geminiGenerate (fun _ _ => Sum.inr "connection refused") "p" "m" 2).result = .hung := by
  decide

/-- C6 amended: for the OpenAI-like and Anthropic-like adapters (which
classify by exception type), a failure that is not an SDK error at all -
not rate-limit, not authentication, not `APIError` - raises the terminal
generic ValueError with exactly one vendor invocation and zero sleeps; the
Gemini-like adapter, classifying by message text only, instead retries
any such failure while retry context is present. -/
theorem non_api_error_terminal_amended :
    (∀ (vendor : AnthVendor) (prompt model msg : String) (fuel : Nat), 1 ≤ fuel →
      (∀ i r, vendor i r = Sum.inr (.other msg)) →
      (anthropicGenerate vendor prompt model fuel).result =
          .valueError ("Error occurred when calling Anthropic API: " ++ msg) ∧
      (anthropicGenerate vendor prompt model fuel).requests.length = 1 ∧
      (anthropicGenerate vendor prompt model fuel).sleeps = []) ∧
    (∀ (vendor : OpenAIVendor) (prompt model msg : String) (fuel : Nat), 1 ≤ fuel →
      (∀ i r, vendor i r = Sum.inr (.other msg)) →
      (openaiGenerate vendor prompt model fuel).result =
          .valueError ("Error occurred when calling OpenAI API: " ++ msg) ∧
      (openaiGenerate vendor prompt model fuel).requests.length = 1 ∧
      (openaiGenerate vendor prompt model fuel).sleeps = []) := by
  constructor
  · intro vendor prompt model msg fuel hf hv
    obtain ⟨f, rfl⟩ : ∃ f, fuel = f + 1 := ⟨fuel - 1, by omega⟩
    simp [anthropicGenerate, anthropicGenLoop, hv, sdkHandleError,
      SdkErr.isRateLimitE, SdkErr.isAuthE, SdkErr.isAPIE, SdkErr.msg]
  · intro vendor prompt model msg fuel hf hv
    obtain ⟨f, rfl⟩ : ∃ f, fuel = f + 1 := ⟨fuel - 1, by omega⟩
    simp [openaiGenerate, openaiGenLoop, hv, sdkHandleError,
      SdkErr.isRateLimitE, SdkErr.isAuthE, SdkErr.isAPIE, SdkErr.msg]

theorem non_api_error_terminal_amended_witness :
    ((anthropicGenerate (fun _ _ => Sum.inr (SdkErr.other "oops")) "p" "m" 1).result =
        .valueError ("Error occurred when calling Anthropic API: " ++ "oops") ∧
      (anthropicGenerate (fun _ _ => Sum.inr (SdkErr.other "oops")) "p" "m" 1).requests.length = 1 ∧
      (anthropicGenerate (fun _ _ => Sum.inr (SdkErr.other "oops")) "p" "m" 1).sleeps = []) ∧
    ((openaiGenerate (fun _ _ => Sum.inr (SdkErr.other "oops")) "p" "gpt-4" 1).result =
        .valueError ("Error occurred when calling OpenAI API: " ++ "oops") ∧
      (openaiGenerate (fun _ _ => Sum.inr (SdkErr.other "oops")) "p" "gpt-4" 1).requests.length = 1 ∧
      (openaiGenerate (fun _ _ => Sum.inr (SdkErr.other "oops")) "p" "gpt-4" 1).sleeps = []) :=
  ⟨non_api_error_terminal_amended.1 _ "p" "m" "oops" 1 (by decide) (fun _ _ => rfl),
   non_api_error_terminal_amended.2 _ "p" "gpt-4" "oops" 1 (by decide) (fun _ _ => rfl)⟩

/-- C7: `Provider.from_prefix` is case-insensitive (a string is a letter
case variant of a documented code exactly when it lowercases to it) and
total over the fixed table: each of the twelve lowered keys resolves to
its documented Provider, and every other input raises the ValueError
naming the offending input. -/
theorem resolve_provider_case_insensitive_total (s : String) :
    (lowerStr s = "o" → resolveProvider s = .ok .openai) ∧
    (lowerStr s = "openai" → resolveProvider s = .ok .openai) ∧
    (lowerStr s = "a" → resolveProvider s = .ok .anthropic) ∧
    (lowerStr s = "anthropic" → resolveProvider s = .ok .anthropic) ∧
    (lowerStr s = "g" → resolveProvider s = .ok .gemini) ∧
    (lowerStr s = "gemini" → resolveProvider s = .ok .gemini) ∧
    (lowerStr s = "q" → resolveProvider s = .ok .groq) ∧
    (lowerStr s = "groq" → resolveProvider s = .ok .groq) ∧
    (lowerStr s = "d" → resolveProvider s = .ok .deepseek) ∧
    (lowerStr s = "deepseek" → resolveProvider s = .ok .deepseek) ∧
    (lowerStr s = "l" → resolveProvider s = .ok .ollama) ∧
    (lowerStr s = "ollama" → resolveProvider s = .ok .ollama) ∧
    (lowerStr s ≠ "o" → lowerStr s ≠ "openai" → lowerStr s ≠ "a" → lowerStr s ≠ "anthropic" →
      lowerStr s ≠ "g" → lowerStr s ≠ "gemini" → lowerStr s ≠ "q" → lowerStr s ≠ "groq" →
      lowerStr s ≠ "d" → lowerStr s ≠ "deepseek" → lowerStr s ≠ "l" → lowerStr s ≠ "ollama" →
      resolveProvider s = .error ("Unknown provider prefix: " ++ s)) := by
  refine ⟨?_, ?_, ?_, ?_, ?_, ?_, ?_, ?_, ?_, ?_, ?_, ?_, ?_⟩ <;>
    intro h <;> simp [resolveProvider, h]
  intro h2 h3 h4 h5 h6 h7 h8 h9 h10 h11 h12
  simp [resolveProvider, h, h2, h3, h4, h5, h6, h7, h8, h9, h10, h11, h12]

theorem resolve_provider_case_insensitive_total_witness :
    resolveProvider "OpenAI" = .ok .openai ∧
    resolveProvider "A" = .ok .anthropic ∧
    resolveProvider "bogus" = .error ("Unknown provider prefix: " ++ "bogus") :=
  ⟨(resolve_provider_case_insensitive_total "OpenAI").2.1 (by decide),
   (resolve_provider_case_insensitive_total "A").2.2.1 (by decide),
   (resolve_provider_case_insensitive_total "bogus").2.2.2.2.2.2.2.2.2.2.2.2
     (by decide) (by decide) (by decide) (by decide) (by decide) (by decide)
     (by decide) (by decide) (by decide) (by decide) (by decide) (by decide)⟩

/-- C8: whenever `generate` of any of the three adapters returns
successfully, the `model` field of the returned PromptResponse is exactly
the original model string passed in, option suffix included (each adapter
builds the response with the unparsed input string). -/
theorem generate_echoes_original_model :
    (∀ (vendor : AnthVendor) (prompt model : String) (fuel : Nat) (resp : PromptResponse),
      (anthropicGenerate vendor prompt model fuel).result = .ok resp → resp.model = model) ∧
    (∀ (vendor : OpenAIVendor) (prompt model : String) (fuel : Nat) (resp : PromptResponse),
      (openaiGenerate vendor prompt model fuel).result = .ok resp → resp.model = model) ∧
    (∀ (vendor : GeminiVendor) (prompt model : String) (fuel : Nat) (resp : PromptResponse),
      (geminiGenerate vendor prompt model fuel).result = .ok resp → resp.model = model) :=
  ⟨fun _ _ _ _ _ h => anthropicGenLoop_ok_model h,
   fun _ _ _ _ _ h => openaiGenLoop_ok_model h,
   fun _ _ _ _ _ h => geminiGenLoop_ok_model h⟩

theorem generate_echoes_original_model_witness :
    (anthropicGenerate (fun _ _ => Sum.inl ⟨["hi"], none⟩) "p" "m:4k" 1).result =
      .ok { model := "m:4k", content := "hi", tokens := none } ∧
    ({ model := "m:4k", content := "hi", tokens := none } : PromptResponse).model = "m:4k" :=
  ⟨by decide, generate_echoes_original_model.1 (fun _ _ => Sum.inl ⟨["hi"], none⟩)
    "p" "m:4k" 1 _ (by decide)⟩

/-- C9: on a successful catalog reply, the OpenAI adapter's list_models
returns a lexicographically sorted (code-point order, as Python `sorted`)
permutation of exactly those vendor-reported ids that start with `gpt-`
or `text-`. -/
theorem openai_list_models_sorted_filtered (ids : List String) :
    List.Pairwise (fun a b => strLe a b = true) (openaiListModels ids) ∧
    (openaiListModels ids).Perm
      (ids.filter (fun id => pyStartsWith id "gpt-" || pyStartsWith id "text-")) :=
  ⟨sortStrings_pairwise _, sortStrings_perm _⟩

/-- C10: the Anthropic adapter's list_models is a constant function of the
adapter state: for any two states (even of different types) it returns the
same fixed seven-element list, making no vendor call (it is a total pure
function of an ignored argument). -/
theorem anthropic_list_models_constant {α β : Type} (c₁ : α) (c₂ : β) :
    anthropicListModels c₁ = anthropicListModels c₂ ∧
    anthropicListModels c₁ =
      ["claude-3-opus-20240229", "claude-3-sonnet-20240229", "claude-3-haiku-20240307",
       "claude-3-7-sonnet-20250219", "claude-2.1", "claude-2.0", "claude-instant-1.2"] ∧
    (anthropicListModels c₁).length = 7 :=
  ⟨rfl, rfl, rfl⟩
